import Mathlib

/-!
Verification of the Car-Price-Prediction dashboard UI logic.

The development shallowly embeds the state and event handlers of the two
React components (`src/components/dashboard.tsx` and
`src/app/model/page.tsx`): component state becomes a Lean structure, each
handler becomes a state-transition function parameterised by the outcome of
its network request, and the conditional JSX fragments become render
functions returning what is displayed.  JavaScript numbers that the code
only stores and formats are modelled as `Int` (with `Option Int` standing
for `NaN`/`null` where the code can produce them), and JavaScript string /
number truthiness tests are translated explicitly (a string is truthy iff
non-empty, a number is truthy iff non-zero, `null` is falsy).
-/

/-! ### JavaScript primitives used by the components -/

/-- Decimal digit value of a character, `none` for non-digits. -/
def decVal (c : Char) : Option Nat :=
  if c.isDigit then some (c.toNat - 48) else none

/-- Hexadecimal digit value of a character, `none` otherwise. -/
def hexVal (c : Char) : Option Nat :=
  if c.isDigit then some (c.toNat - 48)
  else if 'a' ≤ c ∧ c ≤ 'f' then some (c.toNat - 87)
  else if 'A' ≤ c ∧ c ≤ 'F' then some (c.toNat - 55)
  else none

/-- Reads the longest prefix of digits (for `radix`), `none` when empty. -/
def readDigits (val : Char → Option Nat) (radix : Nat) (l : List Char) : Option Nat :=
  let ds := l.takeWhile (fun c => (val c).isSome)
  if ds.isEmpty then none
  else some (ds.foldl (fun acc c => acc * radix + (val c).getD 0) 0)

/-- JavaScript `parseInt(s)` with no radix argument: skip leading
whitespace, optional sign, optional `0x`/`0X` hexadecimal prefix, then the
longest digit prefix; `NaN` (modelled as `none`) when no digit follows. -/
def parseIntJS (s : String) : Option Int :=
  let l := s.data.dropWhile Char.isWhitespace
  let signAndRest : Int × List Char :=
    match l with
    | c :: rest =>
      if c = '-' then (-1, rest) else if c = '+' then (1, rest) else (1, l)
    | [] => (1, [])
  let rest := signAndRest.2
  let hexAndRest : Bool × List Char :=
    match rest with
    | c0 :: c1 :: tl =>
      if c0 = '0' ∧ (c1 = 'x' ∨ c1 = 'X') then (true, tl) else (false, rest)
    | _ => (false, rest)
  let parsed :=
    if hexAndRest.1 then readDigits hexVal 16 hexAndRest.2
    else readDigits decVal 10 hexAndRest.2
  parsed.map (fun n => signAndRest.1 * (n : Int))

/-- UTF-8 bytes of a code point, as natural numbers below 256. -/
def utf8Bytes (n : Nat) : List Nat :=
  if n < 128 then [n]
  else if n < 2048 then [192 + n / 64, 128 + n % 64]
  else if n < 65536 then [224 + n / 4096, 128 + n / 64 % 64, 128 + n % 64]
  else [240 + n / 262144, 128 + n / 4096 % 64, 128 + n / 64 % 64, 128 + n % 64]

/-- Uppercase hexadecimal digit character for a value below 16. -/
def hexDigitChar (n : Nat) : Char :=
  if n < 10 then Char.ofNat (48 + n) else Char.ofNat (55 + n)

/-- Percent-encoding of one byte, e.g. `%20` for 32. -/
def percentEncode (n : Nat) : String :=
  String.mk ['%', hexDigitChar (n / 16 % 16), hexDigitChar (n % 16)]

/-- Characters `encodeURIComponent` leaves unescaped: alphanumerics and
`- _ . ! ~ * ' ( )`. -/
def isUnescapedURI (c : Char) : Bool :=
  c.isAlpha || c.isDigit ||
    [ '-', '_', '.', '!', '~', '*', Char.ofNat 39, '(', ')' ].contains c

/-- JavaScript `encodeURIComponent`: unescaped characters pass through,
every other character is replaced by the percent-encoding of each of its
UTF-8 bytes. -/
def encodeURIComponent (s : String) : String :=
  String.join (s.data.map (fun c =>
    if isUnescapedURI c then String.singleton c
    else String.join ((utf8Bytes c.toNat).map percentEncode)))

/-- Digit characters of `n` with `en-US` thousands separators inserted:
a comma before index `i` whenever the number of remaining digits
`len - i` is a positive multiple of three. -/
def groupedDigits (n : Nat) : List Char :=
  let ds := (Nat.repr n).data
  let len := ds.length
  ds.enum.foldr
    (fun p acc =>
      if p.1 ≠ 0 ∧ (len - p.1) % 3 = 0 then ',' :: p.2 :: acc else p.2 :: acc)
    []

/-- JavaScript `Number.prototype.toLocaleString()` for integers in the
default `en-US` locale: decimal digits grouped in threes by commas, with a
leading minus sign for negative numbers. -/
def toLocaleString (n : Int) : String :=
  (if n < 0 then "-" else "") ++ String.mk (groupedDigits n.natAbs)

/-- JavaScript `a || b` for a nullable string `a`: the default `b` is used
when `a` is `null` or the empty string (the falsy strings). -/
def jsOr (a : Option String) (b : String) : String :=
  match a with
  | some s => if s = "" then b else s
  | none => b

/-- JavaScript `arr.slice(-5)`: the last five elements, or the whole array
when it is shorter. -/
def sliceLast5 {α : Type} (l : List α) : List α :=
  l.drop (l.length - 5)

/-! ### Dashboard component (`src/components/dashboard.tsx`) -/

/-- The `FormData` interface: every field is held as a string. -/
structure FormData where
  name : String
  year : String
  miles : String
deriving Repr, DecidableEq

/-- The `PredictionData` interface; `year` and `miles` are produced by
`parseInt`, so `none` stands for `NaN`. -/
structure PredictionData where
  name : String
  year : Option Int
  miles : Option Int
  price : Int
deriving Repr, DecidableEq

/-- The `useState` hooks of `PricePredictionDashboard`, taken together. -/
structure DashboardState where
  formData : FormData
  availableCars : List String
  searchTerm : String
  isSearching : Bool
  prediction : Option Int
  loading : Bool
  error : Option String
  predictions : List PredictionData
deriving Repr, DecidableEq

/-- Initial dashboard state; the initial `year` string is
`String(new Date().getFullYear())`, so the current year is a parameter. -/
def initialDashboardState (currentYear : Nat) : DashboardState :=
  { formData := { name := "", year := toString currentYear, miles := "0" }
    availableCars := []
    searchTerm := ""
    isSearching := false
    prediction := none
    loading := false
    error := none
    predictions := [] }

/-- Outcome of the `POST /predict` round trip: a parsed response with
`success = true`, a parsed response with `success = false` carrying the
optional `error` field, or a rejection of `fetch`/`json()`. -/
inductive PredictOutcome where
  | success (predicted_price : Int)
  | failure (error : Option String)
  | rejected
deriving Repr, DecidableEq

/-- A JSON value as serialised into the `/predict` request body.
`JSON.stringify` turns the `NaN` produced by a failed `parseInt` into
`null`. -/
inductive JsonVal where
  | str (s : String)
  | num (n : Int)
  | null
deriving Repr, DecidableEq

/-- Serialisation of a `parseInt` result: a number, or `null` for `NaN`. -/
def numOrNull : Option Int → JsonVal
  | some n => JsonVal.num n
  | none => JsonVal.null

/-- The request `handleSubmit` issues. -/
structure PredictRequest where
  url : String
  method : String
  body : List (String × JsonVal)
deriving Repr, DecidableEq

/-- The `fetch` call of `handleSubmit`: a POST to the hardcoded `/predict`
endpoint whose body is
`JSON.stringify({name: formData.name, year: parseInt(formData.year),
miles: parseInt(formData.miles)})`. -/
def predictRequest (fd : FormData) : PredictRequest :=
  { url := "http://localhost:5000/predict"
    method := "POST"
    body :=
      [ ("name", JsonVal.str fd.name)
      , ("year", numOrNull (parseIntJS fd.year))
      , ("miles", numOrNull (parseIntJS fd.miles)) ] }

/-- The history entry appended on success, in the order the object literal
lists it: `{name, miles: parseInt(miles), year: parseInt(year), price}`. -/
def mkPredictionEntry (fd : FormData) (price : Int) : PredictionData :=
  { name := fd.name
    miles := parseIntJS fd.miles
    year := parseIntJS fd.year
    price := price }

/-- `handleSubmit`, given the outcome of the `/predict` round trip.  It
first sets `loading := true` and `error := null`; on success it stores the
predicted price and appends a history entry with `slice(-5)` truncation; on
`success = false` it sets `error := data.error || 'Prediction failed'`; on
rejection it sets the fixed connection-failure message; finally it sets
`loading := false`. -/
def handleSubmit (s : DashboardState) (outcome : PredictOutcome) : DashboardState :=
  let s1 := { s with loading := true, error := none }
  let s2 :=
    match outcome with
    | .success p =>
      { s1 with
        prediction := some p
        predictions :=
          sliceLast5 (s1.predictions ++ [mkPredictionEntry s1.formData p]) }
    | .failure e => { s1 with error := some (jsOr e "Prediction failed") }
    | .rejected =>
      { s1 with error := some "Failed to connect to prediction service" }
  { s2 with loading := false }

/-- The form fields `handleInputChange` can be invoked for, identified by
the `name` attribute of the input element. -/
inductive FieldName where
  | name
  | year
  | miles
deriving Repr, DecidableEq

/-- `value.replace(/[^0-9]/g, '')`: remove every non-digit character. -/
def stripNonDigits (v : String) : String :=
  String.mk (v.data.filter Char.isDigit)

/-- `handleInputChange` restricted to the typed form state: for `year` and
`miles` the entered value is stored with non-digit characters removed,
every other field stores the value unchanged. -/
def handleInputChange (fd : FormData) (field : FieldName) (value : String) : FormData :=
  match field with
  | .year => { fd with year := stripNonDigits value }
  | .miles => { fd with miles := stripNonDigits value }
  | .name => { fd with name := value }

/-- Outcome of the debounced `GET /cars` request. -/
inductive CarsOutcome where
  | success (cars : List String)
  | rejected
deriving Repr, DecidableEq

/-- The URL `fetchCars` requests: the hardcoded `/cars` endpoint, with
`?search=` appended exactly when the search term is truthy (non-empty). -/
def fetchCarsUrl (searchTerm : String) : String :=
  "http://localhost:5000/cars" ++
    (if searchTerm ≠ "" then "?search=" ++ encodeURIComponent searchTerm else "")

/-- `fetchCars`, given the outcome of its request: it sets
`isSearching := true`, then on success stores the cars and clears the
error, on rejection sets the fixed message and empties the car list, and
finally sets `isSearching := false`. -/
def fetchCars (s : DashboardState) (outcome : CarsOutcome) : DashboardState :=
  let s1 := { s with isSearching := true }
  let s2 :=
    match outcome with
    | .success cars => { s1 with availableCars := cars, error := none }
    | .rejected =>
      { s1 with error := some "Failed to load car models", availableCars := [] }
  { s2 with isSearching := false }

/-- The price text of the Prediction Results card: the JSX is guarded by
`{prediction && ...}`, so `null` and the falsy number `0` render nothing;
otherwise the card shows `prediction.toLocaleString()`. -/
def renderedPrice (s : DashboardState) : Option String :=
  match s.prediction with
  | none => none
  | some p => if p = 0 then none else some (toLocaleString p)

/-- The dashboard error banner: `{error && <Alert>...}` renders the Alert
with the error text exactly when `error` is a truthy (non-empty) string. -/
def dashboardErrorBanner (s : DashboardState) : Option String :=
  match s.error with
  | none => none
  | some e => if e = "" then none else some e

/-- The history chart is guarded by `{predictions.length > 0 && ...}`. -/
def historyChartShown (s : DashboardState) : Bool :=
  decide (s.predictions.length > 0)

/-! ### Model analytics page (`src/app/model/page.tsx`) -/

/-- The `metrics` object of the `ModelStats` interface. -/
structure Metrics where
  mse : Int
  rmse : Int
  mae : Int
  r2 : Int
deriving Repr, DecidableEq

/-- The `price_distribution` object of the `ModelStats` interface. -/
structure PriceDistribution where
  labels : List String
  values : List Int
deriving Repr, DecidableEq

/-- The `error_percentiles` object of the `ModelStats` interface. -/
structure ErrorPercentiles where
  p25 : Int
  p50 : Int
  p75 : Int
deriving Repr, DecidableEq

/-- The `error_distribution` object of the `ModelStats` interface. -/
structure ErrorDistribution where
  mean_error : Int
  std_error : Int
  error_percentiles : ErrorPercentiles
deriving Repr, DecidableEq

/-- The `ModelStats` interface; the `Record<string, number>` fields become
association lists. -/
structure ModelStats where
  metrics : Metrics
  price_distribution : PriceDistribution
  error_distribution : ErrorDistribution
  accuracy_by_range : List (String × Int)
  year_performance : List (String × Int)
  sample_size : Nat
  timestamp : String
deriving Repr, DecidableEq

/-- The `ScatterData` interface: four parallel arrays. -/
structure ScatterData where
  actual : List Int
  predicted : List Int
  years : List Int
  miles : List Int
deriving Repr, DecidableEq

/-- The `useState` hooks of `ModelAnalyticsDashboard`. -/
structure ModelPageState where
  stats : Option ModelStats
  scatterData : Option ScatterData
  loading : Bool
  error : Option String
deriving Repr, DecidableEq

/-- Initial model-page state: no data, `loading = true`, no error. -/
def initialModelPageState : ModelPageState :=
  { stats := none, scatterData := none, loading := true, error := none }

/-- Outcome of the `Promise.all` over `/model-stats` and
`/prediction-scatter`: both parsed responses, or a rejection of either
fetch or parse. -/
inductive ModelFetchOutcome where
  | success (stats : ModelStats) (scatter : ScatterData)
  | rejected
deriving Repr, DecidableEq

/-- `fetchData`: on success it stores both responses and clears the error,
on rejection it sets the fixed message; the `finally` block always sets
`loading := false`. -/
def fetchData (s : ModelPageState) (outcome : ModelFetchOutcome) : ModelPageState :=
  let s1 :=
    match outcome with
    | .success st sc =>
      { s with stats := some st, scatterData := some sc, error := none }
    | .rejected => { s with error := some "Failed to load model analytics data" }
  { s1 with loading := false }

/-- What the model page renders, following its early returns in order:
the loading placeholder, the destructive error Alert, the no-data
placeholder, or the charts content. -/
inductive ModelView where
  | loadingView
  | errorBanner (msg : String)
  | noData
  | content (stats : ModelStats) (scatter : ScatterData)
deriving Repr, DecidableEq

/-- Fallthrough of the render after the loading and error guards:
`if (!stats || !scatterData)` shows the no-data placeholder, otherwise the
content renders. -/
def renderModelData (s : ModelPageState) : ModelView :=
  match s.stats, s.scatterData with
  | some st, some sc => ModelView.content st sc
  | _, _ => ModelView.noData

/-- The model page render: `if (loading)` returns the loading placeholder,
then `if (error)` (truthy, i.e. non-empty, string) returns the destructive
Alert instead of any content, then the no-data guard, then the content. -/
def renderModelPage (s : ModelPageState) : ModelView :=
  if s.loading then ModelView.loadingView
  else
    match s.error with
    | some e => if e = "" then renderModelData s else ModelView.errorBanner e
    | none => renderModelData s

/-- One point of the actual-vs-predicted scatter chart; `predicted` is
`scatterData.predicted[idx]`, which is `undefined` (`none`) past the end of
the `predicted` array. -/
structure ScatterPoint where
  actual : Int
  predicted : Option Int
deriving Repr, DecidableEq

/-- `scatterData.actual.map((val, idx) => ({actual: val, predicted:
scatterData.predicted[idx]}))`. -/
def scatterPoints (d : ScatterData) : List ScatterPoint :=
  d.actual.enum.map (fun p => { actual := p.2, predicted := d.predicted[p.1]? })

/-! ### Shared lemmas about `slice(-5)` -/

/-- The result of `slice(-5)` has length `min len 5`. -/
theorem sliceLast5_length {α : Type} (l : List α) :
    (sliceLast5 l).length = min l.length 5 := by
  simp only [sliceLast5, List.length_drop]
  omega

/-- After appending one element and truncating with `slice(-5)`, the
appended element is last. -/
theorem sliceLast5_concat_getLast {α : Type} (l : List α) (a : α) :
    (sliceLast5 (l ++ [a])).getLast? = some a := by
  unfold sliceLast5
  rw [List.drop_append_of_le_length (by simp)]
  exact List.getLast?_concat _

/-- `slice(-5)` returns a suffix of its input. -/
theorem sliceLast5_suffix {α : Type} (l : List α) :
    List.IsSuffix (sliceLast5 l) l :=
  List.drop_suffix _ _

/-! ### Claims -/

/-- C1 (counterexample): the claim fails at `predicted_price = 0`: the
price is stored as the current prediction, but the Results card is guarded
by number truthiness, so nothing is displayed even though
`(0).toLocaleString()` is `"0"`. -/
theorem predict_success_display_zero_cex :
    (handleSubmit (initialDashboardState 2026) (.success 0)).prediction = some 0
    ∧ renderedPrice (handleSubmit (initialDashboardState 2026) (.success 0))
        ≠ some (toLocaleString 0) := by
  decide

/-- C1 (amended): a successful `/predict` response stores
`predicted_price` as the current prediction, and whenever
`predicted_price` is non-zero the displayed price in the Results card is
`predicted_price.toLocaleString()`; when it is `0` the card displays
nothing. -/
theorem predict_success_display (s : DashboardState) (p : Int) :
    (handleSubmit s (.success p)).prediction = some p
    ∧ (p ≠ 0 → renderedPrice (handleSubmit s (.success p)) = some (toLocaleString p))
    ∧ (p = 0 → renderedPrice (handleSubmit s (.success p)) = none) := by
  refine ⟨rfl, ?_, ?_⟩ <;> intro h <;> simp [renderedPrice, handleSubmit, h]

/-- C1 (witness): concrete run of `predict_success_display` at
`predicted_price = 1234567`. -/
theorem predict_success_display_witness :
    (handleSubmit (initialDashboardState 2026) (.success 1234567)).prediction = some 1234567
    ∧ renderedPrice (handleSubmit (initialDashboardState 2026) (.success 1234567))
        = some "1,234,567" := by
  refine ⟨(predict_success_display _ _).1, ?_⟩
  have h := (predict_success_display (initialDashboardState 2026) 1234567).2.1 (by decide)
  rw [h]
  decide

/-- C2: every successful submission appends the new entry and truncates
with `slice(-5)`: the history never exceeds five entries, its length is
`min (old + 1) 5`, the most recent entry is last, and the kept entries are
a suffix of the appended list. -/
theorem predict_history_rolling_five (s : DashboardState) (p : Int) :
    (handleSubmit s (.success p)).predictions.length ≤ 5
    ∧ (handleSubmit s (.success p)).predictions.length = min (s.predictions.length + 1) 5
    ∧ (handleSubmit s (.success p)).predictions.getLast?
        = some (mkPredictionEntry s.formData p)
    ∧ List.IsSuffix (handleSubmit s (.success p)).predictions
        (s.predictions ++ [mkPredictionEntry s.formData p]) := by
  have hp : (handleSubmit s (.success p)).predictions
      = sliceLast5 (s.predictions ++ [mkPredictionEntry s.formData p]) := rfl
  rw [hp]
  refine ⟨?_, ?_, sliceLast5_concat_getLast _ _, sliceLast5_suffix _⟩
  · rw [sliceLast5_length]
    omega
  · rw [sliceLast5_length]
    simp

/-- C3 (counterexample): the error text surfaced for an unsuccessful
`/predict` response is not a fixed string: two responses with different
`error` fields surface different messages. -/
theorem predict_failure_error_dynamic_cex :
    (handleSubmit (initialDashboardState 2026) (.failure (some "Model not loaded"))).error
      ≠ (handleSubmit (initialDashboardState 2026) (.failure (some "Unknown car model"))).error := by
  decide

/-- C3 (amended): fetch rejections surface fixed per-view messages
("Failed to connect to prediction service", "Failed to load car models",
"Failed to load model analytics data"), but a parsed `/predict` response
with `success = false` surfaces the response's own `error` field, falling
back to the fixed "Prediction failed" only when that field is absent or
empty. -/
theorem view_error_messages (s : DashboardState) (ms : ModelPageState) (e : Option String) :
    (handleSubmit s .rejected).error = some "Failed to connect to prediction service"
    ∧ (fetchCars s .rejected).error = some "Failed to load car models"
    ∧ (fetchData ms .rejected).error = some "Failed to load model analytics data"
    ∧ (handleSubmit s (.failure e)).error = some (jsOr e "Prediction failed") :=
  ⟨rfl, rfl, rfl, rfl⟩

/-- C4 (counterexample): typing `20x25` into the `year` field stores
`2025`, not the entered value: the handler strips non-digit characters. -/
theorem input_change_strips_cex :
    (handleInputChange { name := "", year := "2026", miles := "0" } .year "20x25").year
      = "2025"
    ∧ "2025" ≠ "20x25" := by
  decide

/-- C4 (amended): the `name` field stores the entered value unchanged, but
the `year` and `miles` fields store the entered value with every non-digit
character removed; the stored value equals the entered one whenever the
entered value consists of digits only. -/
theorem input_change_transforms (fd : FormData) (v : String) :
    (handleInputChange fd .name v).name = v
    ∧ (handleInputChange fd .year v).year = stripNonDigits v
    ∧ (handleInputChange fd .miles v).miles = stripNonDigits v
    ∧ ((∀ c ∈ v.data, c.isDigit) →
        (handleInputChange fd .year v).year = v
        ∧ (handleInputChange fd .miles v).miles = v) := by
  refine ⟨rfl, rfl, rfl, fun h => ?_⟩
  have hs : stripNonDigits v = v := by
    unfold stripNonDigits
    rw [List.filter_eq_self.mpr h]
  exact ⟨hs, hs⟩

/-- C4 (witness): concrete run of `input_change_transforms` on the
all-digit input `2030`. -/
theorem input_change_transforms_witness :
    (handleInputChange { name := "", year := "2026", miles := "0" } .year "2030").year
      = "2030" :=
  ((input_change_transforms { name := "", year := "2026", miles := "0" } "2030").2.2.2
    (by decide)).1

/-- C5: whenever the `year` and `miles` form strings parse to integers,
the submitted request is a POST to the hardcoded `/predict` endpoint whose
body has exactly the fields `name`, `year`, `miles`, holding the selected
name string and the two parsed integers. -/
theorem predict_request_fields (fd : FormData) (y m : Int)
    (hy : parseIntJS fd.year = some y) (hm : parseIntJS fd.miles = some m) :
    predictRequest fd =
      { url := "http://localhost:5000/predict"
        method := "POST"
        body :=
          [ ("name", JsonVal.str fd.name)
          , ("year", JsonVal.num y)
          , ("miles", JsonVal.num m) ] } := by
  simp [predictRequest, hy, hm, numOrNull]

/-- C5 (witness): concrete run of `predict_request_fields`. -/
theorem predict_request_fields_witness :
    predictRequest { name := "Toyota Camry", year := "2020", miles := "45000" } =
      { url := "http://localhost:5000/predict"
        method := "POST"
        body :=
          [ ("name", JsonVal.str "Toyota Camry")
          , ("year", JsonVal.num 2020)
          , ("miles", JsonVal.num 45000) ] } :=
  predict_request_fields _ 2020 45000 (by decide) (by decide)

/-- C6: every fetch rejection renders the corresponding error banner: the
`/predict` catch and the `/cars` catch put a truthy message into the
dashboard Alert, and the model page renders its destructive Alert instead
of any content. -/
theorem fetch_rejection_shows_banner (s : DashboardState) (ms : ModelPageState) :
    dashboardErrorBanner (handleSubmit s .rejected)
        = some "Failed to connect to prediction service"
    ∧ dashboardErrorBanner (fetchCars s .rejected) = some "Failed to load car models"
    ∧ renderModelPage (fetchData ms .rejected)
        = ModelView.errorBanner "Failed to load model analytics data" :=
  ⟨rfl, rfl, rfl⟩

/-- C7: the car search always requests the hardcoded `/cars` endpoint, and
the URL carries `?search=` with the URI-encoded term exactly when the term
is non-empty: an empty term requests the bare endpoint, and the URL equals
the bare endpoint only for the empty term. -/
theorem cars_url_search_iff (t : String) :
    (t ≠ "" →
      fetchCarsUrl t = "http://localhost:5000/cars?search=" ++ encodeURIComponent t)
    ∧ (t = "" → fetchCarsUrl t = "http://localhost:5000/cars")
    ∧ (fetchCarsUrl t = "http://localhost:5000/cars" ↔ t = "") := by
  have hne : ∀ u : String,
      "http://localhost:5000/cars" ++ ("?search=" ++ u) ≠ "http://localhost:5000/cars" := by
    intro u heq
    have hl := congrArg String.length heq
    rw [String.length_append, String.length_append] at hl
    have h8 : "?search=".length = 8 := by decide
    rw [h8] at hl
    omega
  have hpos : ∀ h : t ≠ "",
      fetchCarsUrl t = "http://localhost:5000/cars" ++ ("?search=" ++ encodeURIComponent t) := by
    intro h
    unfold fetchCarsUrl
    rw [if_pos h]
  refine ⟨fun h => ?_, fun h => ?_, ⟨fun h => ?_, fun h => ?_⟩⟩
  · have hbase : "http://localhost:5000/cars" ++ "?search="
        = "http://localhost:5000/cars?search=" := by decide
    rw [hpos h, ← String.append_assoc, hbase]
  · subst h
    decide
  · by_contra hn
    exact hne (encodeURIComponent t) ((hpos hn) ▸ h)
  · subst h
    decide

/-- C7 (witness): concrete run of `cars_url_search_iff` on the term
`a b`, whose space is percent-encoded. -/
theorem cars_url_search_iff_witness :
    fetchCarsUrl "a b" = "http://localhost:5000/cars?search=a%20b" := by
  have h := (cars_url_search_iff "a b").1 (by decide)
  rw [h]
  decide

/-- C8: the scatter chart pairs the parallel arrays positionally: there
are as many points as entries of `actual`, and point `i` holds
`actual[i]` and `predicted[i]` (the latter `undefined`, i.e. `none`, when
the `predicted` array is shorter). -/
theorem scatter_points_positional (d : ScatterData) (i : Nat)
    (h : i < d.actual.length) :
    (scatterPoints d).length = d.actual.length
    ∧ (scatterPoints d)[i]?
        = some { actual := d.actual.get ⟨i, h⟩, predicted := d.predicted[i]? } := by
  constructor
  · simp [scatterPoints]
  · simp [scatterPoints, List.getElem?_map, List.getElem?_enum,
      List.getElem?_eq_getElem h, List.get_eq_getElem]

/-- C8 (witness): concrete run of `scatter_points_positional` at index 1
of a two-point `actual` array whose `predicted` array has one entry. -/
theorem scatter_points_positional_witness :
    (scatterPoints { actual := [10000, 20000], predicted := [11000]
                     years := [2015, 2018], miles := [5000, 600] }).length = 2
    ∧ (scatterPoints { actual := [10000, 20000], predicted := [11000]
                       years := [2015, 2018], miles := [5000, 600] })[1]?
        = some { actual := 20000, predicted := none } := by
  have h := scatter_points_positional
    { actual := [10000, 20000], predicted := [11000]
      years := [2015, 2018], miles := [5000, 600] } 1 (by decide)
  exact ⟨h.1.trans (by decide), h.2.trans (by decide)⟩

/-- C9: an unsuccessful `/predict` outcome is atomic for the results
state: both for a `success = false` response and for a rejection, the
current prediction, the history, the form data, the car list, the search
term and the searching flag are unchanged; only the error message is set
and the loading flag ends `false`. -/
theorem predict_failure_atomic (s : DashboardState) (e : Option String) :
    (handleSubmit s (.failure e)).prediction = s.prediction
    ∧ (handleSubmit s (.failure e)).predictions = s.predictions
    ∧ (handleSubmit s (.failure e)).formData = s.formData
    ∧ (handleSubmit s (.failure e)).availableCars = s.availableCars
    ∧ (handleSubmit s (.failure e)).searchTerm = s.searchTerm
    ∧ (handleSubmit s (.failure e)).isSearching = s.isSearching
    ∧ (handleSubmit s (.failure e)).loading = false
    ∧ (handleSubmit s (.failure e)).error = some (jsOr e "Prediction failed")
    ∧ (handleSubmit s .rejected).prediction = s.prediction
    ∧ (handleSubmit s .rejected).predictions = s.predictions
    ∧ (handleSubmit s .rejected).formData = s.formData
    ∧ (handleSubmit s .rejected).availableCars = s.availableCars
    ∧ (handleSubmit s .rejected).searchTerm = s.searchTerm
    ∧ (handleSubmit s .rejected).isSearching = s.isSearching
    ∧ (handleSubmit s .rejected).loading = false
    ∧ (handleSubmit s .rejected).error = some "Failed to connect to prediction service" :=
  ⟨rfl, rfl, rfl, rfl, rfl, rfl, rfl, rfl, rfl, rfl, rfl, rfl, rfl, rfl, rfl, rfl⟩

/-- C10: a successful response with `predicted_price = 0` is stored as the
current prediction yet the Results card renders nothing, and the history
chart is hidden exactly when the history is empty. -/
theorem zero_prediction_stored_not_rendered (s : DashboardState) :
    (handleSubmit s (.success 0)).prediction = some 0
    ∧ renderedPrice (handleSubmit s (.success 0)) = none
    ∧ (historyChartShown s = false ↔ s.predictions = []) := by
  refine ⟨rfl, rfl, ?_⟩
  simp [historyChartShown, List.length_eq_zero]
